import Mathlib

/-!
Shallow embedding of the conversational context manager of
`app/services/ai_service.py` (class `AIService`).

Modelling conventions:
* Python `datetime.now()` timestamps are opaque ticks, modelled as `Nat`
  and passed explicitly (`now`).
* `uuid.uuid4()` is modelled by an explicit `freshId : String` argument;
  uniqueness of generated identifiers is the UUID library's property,
  not this code's, so it appears as a hypothesis where a claim needs it.
* The in-memory store `self.conversations` (a Python dict keyed by
  conversation id) is an association list with dict semantics: updating
  an existing key rewrites it in place, a new key is appended.
* The OpenAI client call is an external collaborator: it is a parameter
  `infer : InferRequest → Except Unit String`; `Except.error` stands for
  any exception the `except Exception` handler catches.
-/

inductive Role where
  | system
  | user
  | assistant
deriving DecidableEq, Repr

structure Turn where
  role : Role
  content : String
  timestamp : Nat
deriving DecidableEq, Repr

structure Conversation where
  messages : List Turn
  user_id : String
  created_at : Nat
deriving DecidableEq, Repr

/-- The in-memory conversation store `self.conversations`. -/
abbrev Store := List (String × Conversation)

/-- Dict lookup `self.conversations[cid]` / `cid in self.conversations`. -/
def findStore : Store → String → Option Conversation
  | [], _ => none
  | (k, c) :: rest, cid => if k = cid then some c else findStore rest cid

/-- Dict assignment `self.conversations[cid] = conv` (in-place update of an
existing key, insertion-order append of a new one). -/
def setStore : Store → String → Conversation → Store
  | [], cid, conv => [(cid, conv)]
  | (k, c) :: rest, cid, conv =>
      if k = cid then (cid, conv) :: rest else (k, c) :: setStore rest cid conv

/-- `p` is a leading segment of `s` (character lists). -/
def leadsL : List Char → List Char → Bool
  | [], _ => true
  | _ :: _, [] => false
  | p :: ps, c :: cs => p = c && leadsL ps cs

/-- Python substring membership `pat in s`, over character lists. -/
def containsSub (pat : List Char) : List Char → Bool
  | [] => leadsL pat []
  | c :: cs => leadsL pat (c :: cs) || containsSub pat cs

/-- Python `pat in s` on strings. -/
def strContains (s pat : String) : Bool :=
  containsSub pat.data s.data

/-- Python `message.lower()`, as character-wise lowercasing of the text. -/
def lowerStr (s : String) : String :=
  String.mk (s.data.map Char.toLower)

/-- Python `any(word in message_lower for word in words)`. -/
def anyKeyword (words : List String) (message_lower : String) : Bool :=
  words.any (fun w => strContains message_lower w)

def greetingWords : List String := ["hola", "hello", "hi", "buenos"]
def pricingWords : List String := ["precio", "costo", "tarifa", "price"]
def servicesWords : List String := ["servicio", "limpieza", "service", "cleaning"]
def scheduleWords : List String := ["horario", "hora", "schedule", "time"]
def contactWords : List String := ["contacto", "teléfono", "contact", "phone"]

def greetingReply : String :=
  "¡Hola! Soy el asistente virtual de Rize Professional Cleaning. ¿En qué puedo ayudarte hoy?"
def pricingReply : String :=
  "Nuestros precios varían según el tipo y tamaño del servicio. ¿Podrías contarme más sobre lo que necesitas? Ofrecemos cotizaciones gratuitas."
def servicesReply : String :=
  "Ofrecemos servicios de limpieza residencial, comercial, post-construcción y mantenimiento. ¿Qué tipo de servicio te interesa?"
def scheduleReply : String :=
  "Nuestros horarios son: Lunes a Viernes de 8:00 AM a 6:00 PM, Sábados de 9:00 AM a 3:00 PM. ¿En qué horario te gustaría agendar?"
def contactReply : String :=
  "Puedes contactarnos para una cotización gratuita. ¿Te gustaría que te ayude a programar una consulta?"
def genericReply : String :=
  "Gracias por tu consulta. Soy el asistente de Rize Professional Cleaning. ¿Podrías ser más específico sobre cómo puedo ayudarte con nuestros servicios de limpieza?"

/-- `AIService._get_fallback_response`.  The Python method takes `self`
but neither reads nor writes any of its state, so it is threaded through
unchanged; the returned text is the keyword-precedence chain of the
source. -/
def get_fallback_response (st : Store) (message : String) : Store × String :=
  let message_lower := lowerStr message
  (st,
    if anyKeyword greetingWords message_lower then greetingReply
    else if anyKeyword pricingWords message_lower then pricingReply
    else if anyKeyword servicesWords message_lower then servicesReply
    else if anyKeyword scheduleWords message_lower then scheduleReply
    else if anyKeyword contactWords message_lower then contactReply
    else genericReply)

/-- A `{role, content}` dict of the context window (timestamp dropped). -/
structure CtxMsg where
  role : Role
  content : String
deriving DecidableEq, Repr

/-- The static system persona prompt of `_build_context` (apostrophes of
the source text rendered as U+2019). -/
def system_prompt_content : String :=
  "Eres un asistente virtual profesional para un negocio de limpieza profesional llamado ’Rize Professional Cleaning’. \n\nInformación sobre la empresa:\n- Servicios: Limpieza residencial, comercial, post-construcción, y mantenimiento\n- Horarios: Lunes a Viernes 8:00 AM - 6:00 PM, Sábados 9:00 AM - 3:00 PM\n- Contacto: Disponible para cotizaciones gratuitas\n- Especialidades: Limpieza profunda, desinfección, limpieza ecológica\n\nInstrucciones:\n- Responde de manera profesional y amigable\n- Proporciona información útil sobre servicios de limpieza\n- Si no tienes información específica, ofrece contactar para más detalles\n- Mantén las respuestas concisas pero informativas\n- Siempre enfócate en ayudar al cliente"

def system_prompt : CtxMsg :=
  { role := Role.system, content := system_prompt_content }

/-- Python slicing `lst[-n:]`. -/
def lastN (n : Nat) (l : List α) : List α :=
  l.drop (l.length - n)

/-- `AIService._build_context`: the fixed system prompt followed by the
last 10 stored turns reduced to `{role, content}`; an unknown
conversation id contributes no turns. -/
def build_context (st : Store) (conversation_id : String) : List CtxMsg :=
  let messages := [system_prompt]
  match findStore st conversation_id with
  | some conv =>
      messages ++ (lastN 10 conv.messages).map (fun m => { role := m.role, content := m.content })
  | none => messages

/-- The argument record of `self.client.chat.completions.create(...)`;
`temperature` is the exact rational value of the float literal `0.7`. -/
structure InferRequest where
  model : String
  messages : List CtxMsg
  max_tokens : Nat
  temperature : ℚ
  stream : Bool
deriving DecidableEq, Repr

/-- `if not conversation_id:` — Python truthiness: both `None` and the
empty string cause a fresh `uuid.uuid4()` to be used. -/
def resolveCid (freshId : String) (conversation_id : Option String) : String :=
  match conversation_id with
  | none => freshId
  | some cid => if cid = "" then freshId else cid

/-- `if conversation_id not in self.conversations:` — create the entry
with empty `messages`, the given `user_id` and the current timestamp. -/
def ensureConv (st : Store) (cid user_id : String) (now : Nat) : Store :=
  match findStore st cid with
  | some _ => st
  | none => setStore st cid { messages := [], user_id := user_id, created_at := now }

/-- `self.conversations[cid]["messages"].append(turn)`.  In the flow of
`generate_response` the key is always present (Python would raise
`KeyError` otherwise); the absent case leaves the store unchanged. -/
def appendTurn (st : Store) (cid : String) (t : Turn) : Store :=
  match findStore st cid with
  | some conv => setStore st cid { conv with messages := conv.messages ++ [t] }
  | none => st

/-- The store as the OpenAI call sees it: conversation resolved and
created if needed, user turn appended. -/
def contextStore (st : Store) (freshId : String) (now : Nat)
    (message user_id : String) (conversation_id : Option String) : Store :=
  let cid := resolveCid freshId conversation_id
  appendTurn (ensureConv st cid user_id now) cid
    { role := Role.user, content := message, timestamp := now }

/-- The single request `generate_response` hands to the client:
`model="gpt-3.5-turbo", messages=self._build_context(...), max_tokens=500,
temperature=0.7, stream=False`. -/
def inferRequestOf (st : Store) (freshId : String) (now : Nat)
    (message user_id : String) (conversation_id : Option String) : InferRequest :=
  { model := "gpt-3.5-turbo",
    messages := build_context (contextStore st freshId now message user_id conversation_id)
      (resolveCid freshId conversation_id),
    max_tokens := 500,
    temperature := (7 : ℚ) / 10,
    stream := false }

/-- The state a suspended `generate_response` coroutine carries across
the `await` of the OpenAI call. -/
structure Pending where
  cid : String
  message : String
  now : Nat
deriving DecidableEq, Repr

/-- Lines 27–55 of the source: everything `generate_response` runs
before its only `await` (the OpenAI call), hence atomically under
asyncio cooperative scheduling. -/
def respondPhase1 (st : Store) (freshId : String) (now : Nat)
    (message user_id : String) (conversation_id : Option String) :
    Store × Pending × InferRequest :=
  (contextStore st freshId now message user_id conversation_id,
   { cid := resolveCid freshId conversation_id, message := message, now := now },
   inferRequestOf st freshId now message user_id conversation_id)

/-- Lines 57–86 of the source: the continuation after the `await`
resumes on whatever store the scheduler left (`st`), appending the
assistant turn on success and the fallback turn on any exception. -/
def respondPhase2 (st : Store) (p : Pending) (outcome : Except Unit String) :
    Store × String :=
  match outcome with
  | Except.ok ai_response =>
      (appendTurn st p.cid { role := Role.assistant, content := ai_response, timestamp := p.now },
       ai_response)
  | Except.error _ =>
      let q := get_fallback_response st p.message
      (appendTurn q.1 p.cid { role := Role.assistant, content := q.2, timestamp := p.now },
       q.2)

/-- The returned dict of `generate_response`, together with the store it
leaves behind and the client calls it made. -/
structure RespondResult where
  response : String
  conversation_id : String
  sources : List String
  store : Store
  calls : List InferRequest
deriving DecidableEq, Repr

/-- `AIService.generate_response`, a single uninterrupted run (no other
task interleaves at the `await`): phase 1, the client call, phase 2. -/
def generate_response (infer : InferRequest → Except Unit String)
    (st : Store) (freshId : String) (now : Nat)
    (message : String) (user_id : String) (conversation_id : Option String) :
    RespondResult :=
  let step1 := respondPhase1 st freshId now message user_id conversation_id
  let fin := respondPhase2 step1.1 step1.2.1 (infer step1.2.2)
  { response := fin.2,
    conversation_id := step1.2.1.cid,
    sources := [],
    store := fin.1,
    calls := [step1.2.2] }

/-! ### Store lemmas -/

theorem findStore_setStore_self (st : Store) (k : String) (c : Conversation) :
    findStore (setStore st k c) k = some c := by
  induction st with
  | nil => simp [setStore, findStore]
  | cons hd tl ih =>
      obtain ⟨k0, c0⟩ := hd
      by_cases h : k0 = k
      · subst h; simp [setStore, findStore]
      · simp [setStore, findStore, h, ih]

theorem findStore_setStore_ne (st : Store) (k k' : String) (c : Conversation)
    (h : k' ≠ k) : findStore (setStore st k c) k' = findStore st k' := by
  induction st with
  | nil => simp [setStore, findStore, Ne.symm h]
  | cons hd tl ih =>
      obtain ⟨k0, c0⟩ := hd
      by_cases h0 : k0 = k
      · subst h0
        simp [setStore, findStore, Ne.symm h]
      · by_cases h1 : k0 = k'
        · subst h1; simp [setStore, findStore, h0]
        · simp [setStore, findStore, h0, h1, ih]

theorem ensureConv_of_some (st : Store) (cid user_id : String) (now : Nat)
    (c : Conversation) (h : findStore st cid = some c) :
    ensureConv st cid user_id now = st := by
  simp [ensureConv, h]

theorem findStore_ensureConv_of_none (st : Store) (cid user_id : String) (now : Nat)
    (h : findStore st cid = none) :
    findStore (ensureConv st cid user_id now) cid =
      some { messages := [], user_id := user_id, created_at := now } := by
  simp [ensureConv, h, findStore_setStore_self]

theorem findStore_ensureConv_ne (st : Store) (cid user_id : String) (now : Nat)
    (k : String) (h : k ≠ cid) :
    findStore (ensureConv st cid user_id now) k = findStore st k := by
  unfold ensureConv
  cases hfind : findStore st cid with
  | some c => rfl
  | none => exact findStore_setStore_ne st cid k _ h

theorem findStore_appendTurn_of_some (st : Store) (cid : String) (t : Turn)
    (c : Conversation) (h : findStore st cid = some c) :
    findStore (appendTurn st cid t) cid =
      some { c with messages := c.messages ++ [t] } := by
  simp [appendTurn, h, findStore_setStore_self]

theorem findStore_appendTurn_ne (st : Store) (cid : String) (t : Turn)
    (k : String) (h : k ≠ cid) :
    findStore (appendTurn st cid t) k = findStore st k := by
  unfold appendTurn
  cases hfind : findStore st cid with
  | some c => exact findStore_setStore_ne st cid k _ h
  | none => rfl

/-- After phase 1 the resolved conversation is present: a fresh one got
the caller's `user_id` and the current tick, an existing one kept its
fields; either way the user turn was appended. -/
theorem findStore_contextStore (st : Store) (freshId : String) (now : Nat)
    (message user_id : String) (conversation_id : Option String) :
    findStore (contextStore st freshId now message user_id conversation_id)
        (resolveCid freshId conversation_id) =
      some { messages :=
               ((findStore st (resolveCid freshId conversation_id)).elim []
                  Conversation.messages) ++
               [{ role := Role.user, content := message, timestamp := now }],
             user_id := (findStore st (resolveCid freshId conversation_id)).elim
               user_id Conversation.user_id,
             created_at := (findStore st (resolveCid freshId conversation_id)).elim
               now Conversation.created_at } := by
  simp only [contextStore]
  cases hfind : findStore st (resolveCid freshId conversation_id) with
  | some c =>
      rw [ensureConv_of_some st _ user_id now c hfind,
        findStore_appendTurn_of_some st _ _ c hfind]
      rfl
  | none =>
      rw [findStore_appendTurn_of_some _ _ _ _
        (findStore_ensureConv_of_none st _ user_id now hfind)]
      rfl

theorem findStore_contextStore_ne (st : Store) (freshId : String) (now : Nat)
    (message user_id : String) (conversation_id : Option String)
    (k : String) (h : k ≠ resolveCid freshId conversation_id) :
    findStore (contextStore st freshId now message user_id conversation_id) k =
      findStore st k := by
  simp only [contextStore]
  rw [findStore_appendTurn_ne _ _ _ _ h, findStore_ensureConv_ne _ _ _ _ _ h]

theorem findStore_respondPhase2 (st : Store) (p : Pending)
    (outcome : Except Unit String) (c : Conversation)
    (h : findStore st p.cid = some c) :
    findStore (respondPhase2 st p outcome).1 p.cid =
      some { c with messages := c.messages ++
        [{ role := Role.assistant, content := (respondPhase2 st p outcome).2,
           timestamp := p.now }] } := by
  cases outcome with
  | ok t => exact findStore_appendTurn_of_some st p.cid _ c h
  | error e => exact findStore_appendTurn_of_some st p.cid _ c h

theorem findStore_respondPhase2_ne (st : Store) (p : Pending)
    (outcome : Except Unit String) (k : String) (h : k ≠ p.cid) :
    findStore (respondPhase2 st p outcome).1 k = findStore st k := by
  cases outcome with
  | ok t => exact findStore_appendTurn_ne st p.cid _ k h
  | error e => exact findStore_appendTurn_ne st p.cid _ k h

/-- The messages a conversation id currently stores (empty when the id
is unknown). -/
def storedMessages (st : Store) (cid : String) : List Turn :=
  (findStore st cid).elim [] Conversation.messages

theorem generate_response_cid (infer : InferRequest → Except Unit String)
    (st : Store) (freshId : String) (now : Nat)
    (message user_id : String) (conversation_id : Option String) :
    (generate_response infer st freshId now message user_id conversation_id).conversation_id
      = resolveCid freshId conversation_id := rfl

/-- Net effect of one uninterrupted `generate_response` run on the
resolved conversation: exactly the user turn and one assistant turn
carrying the returned text are appended; `user_id` and `created_at` are
the stored ones when the conversation existed, the fresh ones
otherwise. -/
theorem findStore_generate_response (infer : InferRequest → Except Unit String)
    (st : Store) (freshId : String) (now : Nat)
    (message user_id : String) (conversation_id : Option String) :
    findStore (generate_response infer st freshId now message user_id conversation_id).store
        (resolveCid freshId conversation_id) =
      some { messages := storedMessages st (resolveCid freshId conversation_id) ++
               [{ role := Role.user, content := message, timestamp := now },
                { role := Role.assistant,
                  content := (generate_response infer st freshId now message user_id
                    conversation_id).response,
                  timestamp := now }],
             user_id := (findStore st (resolveCid freshId conversation_id)).elim
               user_id Conversation.user_id,
             created_at := (findStore st (resolveCid freshId conversation_id)).elim
               now Conversation.created_at } := by
  have h2 := findStore_respondPhase2
    (contextStore st freshId now message user_id conversation_id)
    { cid := resolveCid freshId conversation_id, message := message, now := now }
    (infer (inferRequestOf st freshId now message user_id conversation_id)) _
    (findStore_contextStore st freshId now message user_id conversation_id)
  refine Eq.trans h2 ?_
  simp [storedMessages, List.append_assoc]
  rfl

theorem findStore_generate_response_ne (infer : InferRequest → Except Unit String)
    (st : Store) (freshId : String) (now : Nat)
    (message user_id : String) (conversation_id : Option String)
    (k : String) (h : k ≠ resolveCid freshId conversation_id) :
    findStore (generate_response infer st freshId now message user_id conversation_id).store k
      = findStore st k := by
  have h2 := findStore_respondPhase2_ne
    (contextStore st freshId now message user_id conversation_id)
    { cid := resolveCid freshId conversation_id, message := message, now := now }
    (infer (inferRequestOf st freshId now message user_id conversation_id)) k h
  exact Eq.trans h2
    (findStore_contextStore_ne st freshId now message user_id conversation_id k h)

theorem generate_response_response_ok (infer : InferRequest → Except Unit String)
    (st : Store) (freshId : String) (now : Nat)
    (message user_id : String) (conversation_id : Option String) (t : String)
    (h : infer (inferRequestOf st freshId now message user_id conversation_id)
      = Except.ok t) :
    (generate_response infer st freshId now message user_id conversation_id).response
      = t := by
  simp only [generate_response, respondPhase1, respondPhase2, h]

theorem generate_response_response_error (infer : InferRequest → Except Unit String)
    (st : Store) (freshId : String) (now : Nat)
    (message user_id : String) (conversation_id : Option String) (e : Unit)
    (h : infer (inferRequestOf st freshId now message user_id conversation_id)
      = Except.error e) :
    (generate_response infer st freshId now message user_id conversation_id).response
      = (get_fallback_response [] message).2 := by
  simp only [generate_response, respondPhase1, respondPhase2, h]
  rfl

/-! ### Claim theorems -/

/-- C1: when the inference client call fails, `generate_response` does not
propagate the error: it returns the deterministic fallback reply for the
message together with the conversation id as a normal result, and the
conversation ends with the user turn followed by the fallback assistant
turn appended to the previous history. -/
theorem respond_failure_falls_back (infer : InferRequest → Except Unit String)
    (st : Store) (freshId : String) (now : Nat)
    (message user_id : String) (conversation_id : Option String) (e : Unit)
    (h : infer (inferRequestOf st freshId now message user_id conversation_id)
      = Except.error e) :
    (generate_response infer st freshId now message user_id conversation_id).response
        = (get_fallback_response [] message).2 ∧
    (generate_response infer st freshId now message user_id conversation_id).conversation_id
        = resolveCid freshId conversation_id ∧
    findStore (generate_response infer st freshId now message user_id conversation_id).store
        (resolveCid freshId conversation_id) =
      some { messages := storedMessages st (resolveCid freshId conversation_id) ++
               [{ role := Role.user, content := message, timestamp := now },
                { role := Role.assistant, content := (get_fallback_response [] message).2,
                  timestamp := now }],
             user_id := (findStore st (resolveCid freshId conversation_id)).elim
               user_id Conversation.user_id,
             created_at := (findStore st (resolveCid freshId conversation_id)).elim
               now Conversation.created_at } := by
  have hresp := generate_response_response_error infer st freshId now message user_id
    conversation_id e h
  refine ⟨hresp, rfl, ?_⟩
  have hmain := findStore_generate_response infer st freshId now message user_id conversation_id
  rw [hresp] at hmain
  exact hmain

/-- Closed instance of `respond_failure_falls_back`: a client stubbed to
always fail still yields the greeting fallback for "hola". -/
theorem respond_failure_falls_back_witness :
    (generate_response (fun _ => Except.error ()) [] "3fa85f64" 0 "hola" "u" none).response
      = (get_fallback_response [] "hola").2 :=
  (respond_failure_falls_back (fun _ => Except.error ()) [] "3fa85f64" 0 "hola" "u"
    none () rfl).1

/-- C2: when the inference client succeeds with text `X`,
`generate_response` returns `X` with the conversation id, and the
conversation's last turn after the call is an assistant turn with
content `X`. -/
theorem respond_success_returns_text (infer : InferRequest → Except Unit String)
    (st : Store) (freshId : String) (now : Nat)
    (message user_id : String) (conversation_id : Option String) (X : String)
    (h : infer (inferRequestOf st freshId now message user_id conversation_id)
      = Except.ok X) :
    (generate_response infer st freshId now message user_id conversation_id).response = X ∧
    (generate_response infer st freshId now message user_id conversation_id).conversation_id
        = resolveCid freshId conversation_id ∧
    ∃ conv,
      findStore (generate_response infer st freshId now message user_id conversation_id).store
          (resolveCid freshId conversation_id) = some conv ∧
      conv.messages = storedMessages st (resolveCid freshId conversation_id) ++
        [{ role := Role.user, content := message, timestamp := now },
         { role := Role.assistant, content := X, timestamp := now }] ∧
      conv.messages.getLast? =
        some { role := Role.assistant, content := X, timestamp := now } := by
  have hresp := generate_response_response_ok infer st freshId now message user_id
    conversation_id X h
  refine ⟨hresp, rfl, ?_⟩
  have hmain := findStore_generate_response infer st freshId now message user_id conversation_id
  rw [hresp] at hmain
  refine ⟨_, hmain, rfl, ?_⟩
  have hsplit : storedMessages st (resolveCid freshId conversation_id) ++
      [({ role := Role.user, content := message, timestamp := now } : Turn),
       { role := Role.assistant, content := X, timestamp := now }] =
    (storedMessages st (resolveCid freshId conversation_id) ++
      [{ role := Role.user, content := message, timestamp := now }]) ++
      [({ role := Role.assistant, content := X, timestamp := now } : Turn)] := by
    simp
  rw [hsplit]
  exact List.getLast?_concat _

/-- Closed instance of `respond_success_returns_text` with the client
stubbed to succeed with "X". -/
theorem respond_success_returns_text_witness :
    (generate_response (fun _ => Except.ok "X") [] "3fa85f64" 0 "hola" "u" none).response
      = "X" :=
  (respond_success_returns_text (fun _ => Except.ok "X") [] "3fa85f64" 0 "hola" "u"
    none "X" rfl).1

/-- C3: for a stored conversation, `_build_context` returns the fixed
system instruction first, then the last `min 10 n` stored turns, an
insertion-ordered suffix of the history reduced to `{role, content}`;
with at least 10 turns the window has exactly 11 entries. -/
theorem build_context_window (st : Store) (cid : String) (conv : Conversation)
    (h : findStore st cid = some conv) :
    build_context st cid = system_prompt ::
      (lastN 10 conv.messages).map (fun m => { role := m.role, content := m.content }) ∧
    List.IsSuffix (lastN 10 conv.messages) conv.messages ∧
    (lastN 10 conv.messages).length = min 10 conv.messages.length ∧
    (build_context st cid).length = 1 + min 10 conv.messages.length ∧
    (10 ≤ conv.messages.length → (build_context st cid).length = 11) := by
  have h1 : build_context st cid = system_prompt ::
      (lastN 10 conv.messages).map (fun m => { role := m.role, content := m.content }) := by
    simp [build_context, h]
  have h2 : (lastN 10 conv.messages).length = min 10 conv.messages.length := by
    simp only [lastN, List.length_drop]
    omega
  have h3 : (build_context st cid).length = 1 + min 10 conv.messages.length := by
    rw [h1]
    simp only [List.length_cons, List.length_map, h2]
    omega
  exact ⟨h1, List.drop_suffix _ _, h2, h3, fun hn => by rw [h3]; omega⟩

/-- Closed instance of `build_context_window`: a 12-turn conversation
yields an 11-entry window. -/
theorem build_context_window_witness :
    (build_context
      [("c", { messages := List.replicate 12
                 { role := Role.user, content := "m", timestamp := 0 },
               user_id := "u", created_at := 0 })] "c").length = 11 :=
  (build_context_window
    [("c", { messages := List.replicate 12
               { role := Role.user, content := "m", timestamp := 0 },
             user_id := "u", created_at := 0 })] "c"
    { messages := List.replicate 12 { role := Role.user, content := "m", timestamp := 0 },
      user_id := "u", created_at := 0 } rfl).2.2.2.2 (by decide)

/-- C5: the store is append-only — after any `generate_response` run,
every conversation's history is its old history, extended for the
addressed conversation by exactly the user turn and one assistant turn
carrying the returned text (so no user turn is left dangling), and
unchanged for every other conversation. -/
theorem respond_appends_exactly_pair (infer : InferRequest → Except Unit String)
    (st : Store) (freshId : String) (now : Nat)
    (message user_id : String) (conversation_id : Option String) :
    (∃ conv,
      findStore (generate_response infer st freshId now message user_id conversation_id).store
          (generate_response infer st freshId now message user_id conversation_id).conversation_id
        = some conv ∧
      conv.messages = storedMessages st (resolveCid freshId conversation_id) ++
        [{ role := Role.user, content := message, timestamp := now },
         { role := Role.assistant,
           content := (generate_response infer st freshId now message user_id
             conversation_id).response,
           timestamp := now }]) ∧
    (∀ k, storedMessages
        (generate_response infer st freshId now message user_id conversation_id).store k
        = storedMessages st k ∨
      storedMessages
        (generate_response infer st freshId now message user_id conversation_id).store k
        = storedMessages st k ++
          [{ role := Role.user, content := message, timestamp := now },
           { role := Role.assistant,
             content := (generate_response infer st freshId now message user_id
               conversation_id).response,
             timestamp := now }]) := by
  constructor
  · rw [generate_response_cid]
    exact ⟨_, findStore_generate_response infer st freshId now message user_id
      conversation_id, rfl⟩
  · intro k
    by_cases hk : k = resolveCid freshId conversation_id
    · subst hk
      right
      rw [storedMessages, findStore_generate_response infer st freshId now message user_id
        conversation_id]
      rfl
    · left
      rw [storedMessages, storedMessages,
        findStore_generate_response_ne infer st freshId now message user_id
          conversation_id k hk]

/-- C7: `_get_fallback_response` is pure and deterministic — it returns
the service state unchanged and its text does not depend on that
state. -/
theorem fallback_pure_deterministic (st st' : Store) (message : String) :
    (get_fallback_response st message).1 = st ∧
    (get_fallback_response st message).2 = (get_fallback_response st' message).2 :=
  ⟨rfl, rfl⟩

/-- C8: every `generate_response` run invokes the client exactly once,
with exactly the context built after the user turn was appended (system
instruction first, then the selected window oldest first), model
gpt-3.5-turbo, a 500-token output bound, temperature 0.7, and streaming
disabled. -/
theorem respond_calls_client_once (infer : InferRequest → Except Unit String)
    (st : Store) (freshId : String) (now : Nat)
    (message user_id : String) (conversation_id : Option String) :
    (generate_response infer st freshId now message user_id conversation_id).calls
        = [inferRequestOf st freshId now message user_id conversation_id] ∧
    (inferRequestOf st freshId now message user_id conversation_id).messages
        = build_context (contextStore st freshId now message user_id conversation_id)
            (resolveCid freshId conversation_id) ∧
    (inferRequestOf st freshId now message user_id conversation_id).model
        = "gpt-3.5-turbo" ∧
    (inferRequestOf st freshId now message user_id conversation_id).max_tokens = 500 ∧
    (inferRequestOf st freshId now message user_id conversation_id).temperature
        = (7 : ℚ) / 10 ∧
    (inferRequestOf st freshId now message user_id conversation_id).stream = false ∧
    build_context (contextStore st freshId now message user_id conversation_id)
        (resolveCid freshId conversation_id)
      = system_prompt ::
        (lastN 10 (storedMessages st (resolveCid freshId conversation_id) ++
          [{ role := Role.user, content := message, timestamp := now }])).map
          (fun m => { role := m.role, content := m.content }) := by
  refine ⟨rfl, rfl, rfl, rfl, rfl, rfl, ?_⟩
  rw [build_context, findStore_contextStore st freshId now message user_id conversation_id]
  rfl

/-- C6: the fallback responder lowercases its input and tests keyword
containment in the fixed precedence order greeting, pricing, services,
schedule, contact, generic; the first matching branch wins — in
particular a message matching both greeting and pricing keywords gets
the greeting reply. -/
theorem fallback_precedence (st : Store) (message : String) :
    (anyKeyword greetingWords (lowerStr message) = true →
      (get_fallback_response st message).2 = greetingReply) ∧
    (anyKeyword greetingWords (lowerStr message) = false →
     anyKeyword pricingWords (lowerStr message) = true →
      (get_fallback_response st message).2 = pricingReply) ∧
    (anyKeyword greetingWords (lowerStr message) = false →
     anyKeyword pricingWords (lowerStr message) = false →
     anyKeyword servicesWords (lowerStr message) = true →
      (get_fallback_response st message).2 = servicesReply) ∧
    (anyKeyword greetingWords (lowerStr message) = false →
     anyKeyword pricingWords (lowerStr message) = false →
     anyKeyword servicesWords (lowerStr message) = false →
     anyKeyword scheduleWords (lowerStr message) = true →
      (get_fallback_response st message).2 = scheduleReply) ∧
    (anyKeyword greetingWords (lowerStr message) = false →
     anyKeyword pricingWords (lowerStr message) = false →
     anyKeyword servicesWords (lowerStr message) = false →
     anyKeyword scheduleWords (lowerStr message) = false →
     anyKeyword contactWords (lowerStr message) = true →
      (get_fallback_response st message).2 = contactReply) ∧
    (anyKeyword greetingWords (lowerStr message) = false →
     anyKeyword pricingWords (lowerStr message) = false →
     anyKeyword servicesWords (lowerStr message) = false →
     anyKeyword scheduleWords (lowerStr message) = false →
     anyKeyword contactWords (lowerStr message) = false →
      (get_fallback_response st message).2 = genericReply) ∧
    (anyKeyword greetingWords (lowerStr message) = true →
     anyKeyword pricingWords (lowerStr message) = true →
      (get_fallback_response st message).2 = greetingReply) := by
  refine ⟨fun h1 => by simp [get_fallback_response, h1],
    fun h1 h2 => by simp [get_fallback_response, h1, h2],
    fun h1 h2 h3 => by simp [get_fallback_response, h1, h2, h3],
    fun h1 h2 h3 h4 => by simp [get_fallback_response, h1, h2, h3, h4],
    fun h1 h2 h3 h4 h5 => by simp [get_fallback_response, h1, h2, h3, h4, h5],
    fun h1 h2 h3 h4 h5 => by simp [get_fallback_response, h1, h2, h3, h4, h5],
    fun h1 _ => by simp [get_fallback_response, h1]⟩

/-- Closed instance of `fallback_precedence`: "hola, precio?" matches
both the greeting and the pricing keywords and gets the greeting
reply. -/
theorem fallback_precedence_witness :
    (get_fallback_response [] "hola, precio?").2 = greetingReply :=
  (fallback_precedence [] "hola, precio?").2.2.2.2.2.2 (by decide) (by decide)

/-- C10: a `generate_response` call addressing an existing conversation
leaves that conversation's `user_id` and `created_at` unchanged
(whatever `user_id` argument is passed) and leaves every other
conversation in the store entirely unchanged. -/
theorem respond_preserves_existing (infer : InferRequest → Except Unit String)
    (st : Store) (freshId : String) (now : Nat)
    (message user_id c : String) (conv0 : Conversation)
    (hc : c ≠ "") (h : findStore st c = some conv0) :
    (∃ conv1,
      findStore (generate_response infer st freshId now message user_id (some c)).store c
        = some conv1 ∧
      conv1.user_id = conv0.user_id ∧ conv1.created_at = conv0.created_at) ∧
    (∀ k, k ≠ c →
      findStore (generate_response infer st freshId now message user_id (some c)).store k
        = findStore st k) := by
  have hcid : resolveCid freshId (some c) = c := by simp [resolveCid, hc]
  constructor
  · have hmain := findStore_generate_response infer st freshId now message user_id (some c)
    rw [hcid, h] at hmain
    exact ⟨_, hmain, rfl, rfl⟩
  · intro k hk
    exact findStore_generate_response_ne infer st freshId now message user_id (some c) k
      (by rw [hcid]; exact hk)

/-- Closed instance of `respond_preserves_existing`: a call addressing
"c" with a different `user_id` leaves the unrelated conversation "d"
untouched. -/
theorem respond_preserves_existing_witness :
    findStore ((generate_response (fun _ => Except.error ())
        [("c", { messages := [], user_id := "owner", created_at := 5 }),
         ("d", { messages := [], user_id := "other", created_at := 6 })]
        "3fa85f64" 9 "hola" "intruder" (some "c")).store) "d" =
      some { messages := [], user_id := "other", created_at := 6 } :=
  ((respond_preserves_existing (fun _ => Except.error ())
      [("c", { messages := [], user_id := "owner", created_at := 5 }),
       ("d", { messages := [], user_id := "other", created_at := 6 })]
      "3fa85f64" 9 "hola" "intruder" "c"
      { messages := [], user_id := "owner", created_at := 5 }
      (by decide) rfl).2 "d" (by decide)).trans rfl

/-- C4 counterexample: the claim "respond returns a conversation_id
equal to the supplied one when provided" fails for the supplied empty
identifier — `if not conversation_id:` treats `""` as absent, so the
fresh uuid is returned instead of the supplied `""`. -/
theorem respond_id_counterexample :
    (generate_response (fun _ => Except.error ()) [] "3fa85f64" 0 "hey" "u"
        (some "")).conversation_id = "3fa85f64" ∧
    "3fa85f64" ≠ "" :=
  ⟨rfl, by decide⟩

/-- C4 amended: `generate_response` returns the supplied conversation id
whenever a non-empty one is supplied; when none or the empty string is
supplied it returns the freshly generated identifier (whose uniqueness
is the uuid library's guarantee); and when the resolved id has no stored
conversation it creates one carrying the given `user_id` and the
current timestamp, whose history after the call is exactly the user turn
followed by the assistant turn. -/
theorem respond_id_resolution (infer : InferRequest → Except Unit String)
    (st : Store) (freshId : String) (now : Nat) (message user_id : String) :
    (∀ c : String, c ≠ "" →
      (generate_response infer st freshId now message user_id (some c)).conversation_id
        = c) ∧
    ((generate_response infer st freshId now message user_id none).conversation_id
        = freshId) ∧
    ((generate_response infer st freshId now message user_id (some "")).conversation_id
        = freshId) ∧
    (∀ conversation_id : Option String,
      findStore st (resolveCid freshId conversation_id) = none →
      findStore (generate_response infer st freshId now message user_id
            conversation_id).store
          (generate_response infer st freshId now message user_id
            conversation_id).conversation_id =
        some { messages :=
                 [{ role := Role.user, content := message, timestamp := now },
                  { role := Role.assistant,
                    content := (generate_response infer st freshId now message user_id
                      conversation_id).response,
                    timestamp := now }],
               user_id := user_id,
               created_at := now }) := by
  refine ⟨?_, rfl, rfl, ?_⟩
  · intro c hc
    rw [generate_response_cid]
    simp [resolveCid, hc]
  · intro conversation_id h
    have hmain := findStore_generate_response infer st freshId now message user_id
      conversation_id
    rw [h] at hmain
    rw [generate_response_cid]
    exact Eq.trans hmain (by rw [storedMessages, h]; rfl)

/-- Closed instance of `respond_id_resolution`: a supplied non-empty id
is returned unchanged. -/
theorem respond_id_resolution_witness :
    (generate_response (fun _ => Except.ok "X") [] "3fa85f64" 0 "hola" "u"
        (some "abc")).conversation_id = "abc" :=
  (respond_id_resolution (fun _ => Except.ok "X") [] "3fa85f64" 0 "hola" "u").1
    "abc" (by decide)

/-- C9 counterexample: on one conversation "c", task A
(message "hola") suspends at the inference `await` after appending its
user turn; task B (message "precio") runs both phases;
then A resumes.  The final history interleaves B's pair between A's
user turn and A's fallback turn — the user/assistant append pair is not
atomic on a shared conversation. -/
theorem append_pair_interleaving_counterexample :
    findStore (respondPhase2
        ((respondPhase2
            ((respondPhase1
                ((respondPhase1 [] "A" 0 "hola" "uA" (some "c")).1)
                "B" 1 "precio" "uB" (some "c")).1)
            (respondPhase1
              ((respondPhase1 [] "A" 0 "hola" "uA" (some "c")).1)
              "B" 1 "precio" "uB" (some "c")).2.1
            (Except.error ())).1)
        (respondPhase1 [] "A" 0 "hola" "uA" (some "c")).2.1
        (Except.error ())).1 "c" =
      some { messages :=
               [{ role := Role.user, content := "hola", timestamp := 0 },
                { role := Role.user, content := "precio", timestamp := 1 },
                { role := Role.assistant, content := pricingReply, timestamp := 1 },
                { role := Role.assistant, content := greetingReply, timestamp := 0 }],
             user_id := "uA", created_at := 0 } := by decide

/-- C9 amended: each single turn append is an atomic step, but the
user/assistant pair of one call is split by the `await` of the inference
call, so other calls' appends to the same conversation may land between
them.  What does hold: whatever runs while a call awaits, as long as it
does not touch that call's conversation — in particular any calls on
distinct conversation ids, which never do (second conjunct) — the
conversation ends with exactly that call's user turn and assistant turn
appended, uninterleaved. -/
theorem append_pair_non_atomic_amended :
    (∀ (st : Store) (freshId : String) (now : Nat) (message user_id : String)
        (conversation_id : Option String) (outcome : Except Unit String)
        (E : Store → Store),
      (∀ s, findStore (E s) (resolveCid freshId conversation_id)
          = findStore s (resolveCid freshId conversation_id)) →
      findStore (respondPhase2
            (E (respondPhase1 st freshId now message user_id conversation_id).1)
            (respondPhase1 st freshId now message user_id conversation_id).2.1
            outcome).1
          (resolveCid freshId conversation_id) =
        some { messages := storedMessages st (resolveCid freshId conversation_id) ++
                 [{ role := Role.user, content := message, timestamp := now },
                  { role := Role.assistant,
                    content := (respondPhase2
                      (E (respondPhase1 st freshId now message user_id
                        conversation_id).1)
                      (respondPhase1 st freshId now message user_id
                        conversation_id).2.1
                      outcome).2,
                    timestamp := now }],
               user_id := (findStore st (resolveCid freshId conversation_id)).elim
                 user_id Conversation.user_id,
               created_at := (findStore st (resolveCid freshId conversation_id)).elim
                 now Conversation.created_at }) ∧
    (∀ (infer : InferRequest → Except Unit String) (st : Store) (freshId : String)
        (now : Nat) (message user_id : String) (conversation_id : Option String)
        (k : String), k ≠ resolveCid freshId conversation_id →
      findStore (generate_response infer st freshId now message user_id
          conversation_id).store k = findStore st k) := by
  constructor
  · intro st freshId now message user_id conversation_id outcome E hE
    have h1 := findStore_contextStore st freshId now message user_id conversation_id
    have h1e : findStore
        (E (respondPhase1 st freshId now message user_id conversation_id).1)
        (resolveCid freshId conversation_id) = _ :=
      (hE (respondPhase1 st freshId now message user_id conversation_id).1).trans h1
    have h2 := findStore_respondPhase2
      (E (respondPhase1 st freshId now message user_id conversation_id).1)
      { cid := resolveCid freshId conversation_id, message := message, now := now }
      outcome _ h1e
    refine Eq.trans h2 ?_
    simp [storedMessages, List.append_assoc]
    rfl
  · intro infer st freshId now message user_id conversation_id k hk
    exact findStore_generate_response_ne infer st freshId now message user_id
      conversation_id k hk

/-- Closed instance of `append_pair_non_atomic_amended`: while task A
(message "hola", conversation "c") awaits, a full call on the distinct
conversation "d" runs; A's conversation still ends with exactly its own
user/fallback pair. -/
theorem append_pair_non_atomic_amended_witness :
    findStore (respondPhase2
        ((generate_response (fun _ => Except.error ())
            ((respondPhase1 [] "A" 0 "hola" "uA" (some "c")).1)
            "B" 1 "precio" "uB" (some "d")).store)
        (respondPhase1 [] "A" 0 "hola" "uA" (some "c")).2.1
        (Except.error ())).1 "c" =
      some { messages :=
               [{ role := Role.user, content := "hola", timestamp := 0 },
                { role := Role.assistant, content := greetingReply, timestamp := 0 }],
             user_id := "uA", created_at := 0 } :=
  (append_pair_non_atomic_amended.1 [] "A" 0 "hola" "uA" (some "c") (Except.error ())
    (fun s => (generate_response (fun _ => Except.error ()) s
      "B" 1 "precio" "uB" (some "d")).store)
    (fun s => append_pair_non_atomic_amended.2 (fun _ => Except.error ()) s
      "B" 1 "precio" "uB" (some "d") "c" (by decide))).trans (by decide)
